import Mathlib

/-!
Verification of `src/web/serve.py`, a static-file HTTP server that adds the
two cross-origin isolation headers to every response and overrides MIME-type
inference for `.wasm` and `.mjs`.

The custom logic that lives in `src/web/serve.py` — `COOPCOEPHandler.end_headers`,
`COOPCOEPHandler.guess_type`, and the `__main__` block (argv parsing, bind,
interrupt handling) — is embedded directly from the source.  The underlying
serving facility (`http.server.SimpleHTTPRequestHandler` request dispatch,
path resolution against the document root, and the default extension-to-MIME
lookup) is not part of this repository's sources; those parts are modelled
from the spec and are marked `Modelled from the spec:` in their doc comments.
-/

/-- Python's `s.endswith(suffix)`: `suffix` is a suffix of `s` (character-wise,
case-sensitive). -/
def endswith (s suffix : String) : Bool :=
  List.isSuffixOf suffix.data s.data

/-- The first isolation header sent by `COOPCOEPHandler.end_headers`. -/
def coopHeader : String × String :=
  ("Cross-Origin-Opener-Policy", "same-origin")

/-- The second isolation header sent by `COOPCOEPHandler.end_headers`. -/
def coepHeader : String × String :=
  ("Cross-Origin-Embedder-Policy", "require-corp")

/-- Embeds `COOPCOEPHandler.end_headers` (src/web/serve.py lines 23-28): given
the headers already buffered by `send_header` calls for this response, it sends
the two isolation headers and then delegates to the base class, which flushes
the buffer.  The resulting header block is the buffered headers followed by the
two isolation headers. -/
def end_headers (buffered : List (String × String)) : List (String × String) :=
  buffered ++ [coopHeader, coepHeader]

/-- Embeds `COOPCOEPHandler.guess_type` (src/web/serve.py lines 30-36),
parametric in the base-class lookup `superGuess` (`super().guess_type`). -/
def guess_type (superGuess : String → String) (path : String) : String :=
  if endswith path ".wasm" then "application/wasm"
  else if endswith path ".mjs" then "application/javascript"
  else superGuess path

/-- Modelled from the spec: the underlying facility's default
extension-to-MIME-type lookup (`SimpleHTTPRequestHandler.guess_type`), which is
not under src/.  Per the spec it is an extension table covering at least the
common web types (`.html`, `.css`, `.js`, `.json`, `.png`, `.svg`, ...),
matching widely-used defaults, with a generic fallback. -/
def defaultGuessType (path : String) : String :=
  if endswith path ".html" then "text/html"
  else if endswith path ".htm" then "text/html"
  else if endswith path ".css" then "text/css"
  else if endswith path ".js" then "text/javascript"
  else if endswith path ".json" then "application/json"
  else if endswith path ".png" then "image/png"
  else if endswith path ".svg" then "image/svg+xml"
  else "application/octet-stream"

/-- Splits a request path into its `/`-separated segments. -/
def splitSlashAux : List Char → List Char → List String
  | [], acc => [String.mk acc.reverse]
  | c :: rest, acc =>
    if c = '/' then String.mk acc.reverse :: splitSlashAux rest []
    else splitSlashAux rest (c :: acc)

/-- Splits a request path string on `/`. -/
def splitSlash (s : String) : List String :=
  splitSlashAux s.data []

/-- Modelled from the spec: one step of resolving a request path against the
document root.  Empty and `.` segments are skipped, `..` pops one segment; a
`..` that would escape the document root makes the whole resolution fail
(`none`), which the server rejects.  The accumulated stack holds the resolved
segments in reverse order. -/
def resolveStep (acc : Option (List String)) (seg : String) : Option (List String) :=
  match acc with
  | none => none
  | some stack =>
    if seg = "" || seg = "." then some stack
    else if seg = ".." then
      match stack with
      | [] => none
      | _ :: t => some t
    else some (seg :: stack)

/-- Modelled from the spec: resolves a request path to the list of path
segments relative to the document root, or `none` when the path would escape
the root (a path-traversal attempt, which the server rejects). -/
def resolvePath (reqPath : String) : Option (List String) :=
  ((splitSlash reqPath).foldl resolveStep (some [])).map List.reverse

/-- A filesystem: a finite map from absolute paths (as segment lists) to file
contents (byte lists).  Entries whose key does not extend the document root
are the files outside the root. -/
abbrev FileSystem := List (List String × List Nat)

/-- Looks a path up in the filesystem. -/
def fsLookup : FileSystem → List String → Option (List Nat)
  | [], _ => none
  | (k, v) :: rest, key => if k = key then some v else fsLookup rest key

/-- Writes a file: afterwards `key` maps to `bytes`. -/
def fsWrite (fs : FileSystem) (key : List String) (bytes : List Nat) : FileSystem :=
  (key, bytes) :: fs

/-- An HTTP response: status code, the header block as flushed, and the body. -/
structure Response where
  status : Nat
  headers : List (String × String)
  body : List Nat
deriving DecidableEq

/-- Modelled from the spec: an error response produced by the underlying
facility (e.g. its default 404 page).  Its header block is also finalized via
the overridden `end_headers`, so it too carries the isolation headers. -/
def errorResponse (code : Nat) : Response :=
  { status := code
  , headers := end_headers [("Content-Type", "text/html;charset=utf-8")]
  , body := [] }

/-- Modelled from the spec (composed with `end_headers` and `guess_type` from
src/web/serve.py): handling of a GET request.  The request path is resolved
against the document root `root`; a path that would escape the root is
rejected with 404; an existing regular file is served with 200, its bytes as
the body, and `Content-Type` from the MIME-override step; a missing entry
gets 404.  Every branch finalizes its header block through the overridden
`end_headers`. -/
def handle (root : List String) (fs : FileSystem) (reqPath : String) : Response :=
  match resolvePath reqPath with
  | none => errorResponse 404
  | some segs =>
    match fsLookup fs (root ++ segs) with
    | none => errorResponse 404
    | some bytes =>
      { status := 200
      , headers := end_headers
          [ ("Content-Type", guess_type defaultGuessType reqPath)
          , ("Content-Length", toString bytes.length) ]
      , body := bytes }

/-- Number of headers in a header block carrying the given header name. -/
def countName (hs : List (String × String)) (n : String) : Nat :=
  (hs.filter fun h => h.1 == n).length

/-- A character Python's `int(str)` strips from either end of its argument
(ASCII whitespace). -/
def isPySpace (c : Char) : Bool :=
  c = ' ' || c = '\t' || c = '\n' || c = '\r' || c = '\x0b' || c = '\x0c'

/-- Numeric value of a decimal digit character. -/
def digitVal (c : Char) : Nat :=
  c.toNat - 48

/-- Continues Python's decimal-literal scan after at least one digit has been
read: further digits extend the value, and a single `_` may stand between two
digits; anything else (including a trailing or doubled `_`) is invalid. -/
def parseDigitsAux (acc : Nat) : List Char → Option Nat
  | [] => some acc
  | '_' :: rest =>
    match rest with
    | [] => none
    | c :: rest' =>
      if c.isDigit then parseDigitsAux (10 * acc + digitVal c) rest' else none
  | c :: rest =>
    if c.isDigit then parseDigitsAux (10 * acc + digitVal c) rest else none

/-- Scans a nonempty Python decimal literal (digits, with single underscores
allowed between digits). -/
def parseDigitList : List Char → Option Nat
  | [] => none
  | c :: rest => if c.isDigit then parseDigitsAux (digitVal c) rest else none

/-- Python's `int(s)` on a string in base 10: surrounding ASCII whitespace is
ignored, an optional sign precedes a nonempty digit string (underscores
permitted between digits); any other shape raises `ValueError`, modelled as
`none`.  There is no range restriction. -/
def pythonInt (s : String) : Option Int :=
  match ((s.data.dropWhile isPySpace).reverse.dropWhile isPySpace).reverse with
  | '+' :: rest => (parseDigitList rest).map Int.ofNat
  | '-' :: rest => (parseDigitList rest).map fun n => -(Int.ofNat n)
  | rest => (parseDigitList rest).map Int.ofNat

/-- Embeds the argv handling of the `__main__` block (src/web/serve.py lines
40-41): `port = int(sys.argv[1]) if len(sys.argv) > 1 else 8080` and
`bind = sys.argv[2] if len(sys.argv) > 2 else '127.0.0.1'`.  `argv` includes
the program name at index 0.  `none` models the uncaught `ValueError` from
`int`. -/
def parseArgs (argv : List String) : Option (Int × String) :=
  match argv with
  | _ :: a1 :: rest =>
    (pythonInt a1).map fun p =>
      (p, match rest with | a2 :: _ => a2 | [] => "127.0.0.1")
  | _ => some (8080, "127.0.0.1")

/-- Outcome of process startup: either a fatal error that terminates the
process with the given exit code before any request is served, or a server
listening on the given address and port. -/
inductive StartResult where
  | fatal (exitCode : Nat)
  | serving (bindAddr : String) (port : Int)
deriving DecidableEq

/-- Embeds the startup portion of the `__main__` block (src/web/serve.py lines
40-43): parse argv, then construct `HTTPServer((bind, port), COOPCOEPHandler)`.
`bindOk` is the environment's verdict on binding the (address, port) pair; a
failed bind raises `OSError`.  An uncaught `ValueError`/`OSError` terminates
the Python process with exit code 1 before any request is served. -/
def startup (bindOk : String → Int → Bool) (argv : List String) : StartResult :=
  match parseArgs argv with
  | none => .fatal 1
  | some (port, bindAddr) =>
    if bindOk bindAddr port then .serving bindAddr port else .fatal 1

/-- What the process reports when it stops serving: its exit code, the lines
it printed, and the listening sockets still held after it is gone. -/
structure ShutdownReport where
  exitCode : Nat
  loggedLines : List String
  openListeners : List (String × Int)
deriving DecidableEq

/-- Embeds the `except KeyboardInterrupt` branch (src/web/serve.py lines
47-49): prints the shutdown message and calls `server.shutdown()`, which stops
the serve loop (the loop has already stopped, so this returns at once). -/
def keyboardInterruptHandler (logSoFar : List String) : List String :=
  logSoFar ++ ["\nShutting down."]

/-- Embeds the `try: server.serve_forever() except KeyboardInterrupt: ...`
block together with process teardown.  An interrupt while serving on
`listener` runs the handler and then the script ends:  Modelled from the
spec / Python runtime semantics: falling off the end of the script is a
normal interpreter exit with code 0, and process termination releases every
socket the process held, the listener included. -/
def serveUntilInterrupt (_listener : String × Int) (logSoFar : List String) :
    ShutdownReport :=
  { exitCode := 0
  , loggedLines := keyboardInterruptHandler logSoFar
  , openListeners := [] }

/-! ## Helper lemmas -/

theorem endswith_iff {s p : String} : endswith s p = true ↔ p.data <:+ s.data := by
  simp [endswith]

theorem endswith_false_left {s p q : String}
    (hlen : p.data.length ≤ q.data.length)
    (hpq : List.isSuffixOf p.data q.data = false)
    (hq : endswith s q = true) : endswith s p = false := by
  cases hsp : endswith s p with
  | false => rfl
  | true =>
    exfalso
    have h1 : p.data <:+ s.data := endswith_iff.mp hsp
    have h2 : q.data <:+ s.data := endswith_iff.mp hq
    have h3 : p.data <:+ q.data := List.suffix_of_suffix_length_le h1 h2 hlen
    have h4 : List.isSuffixOf p.data q.data = true :=
      List.isSuffixOf_iff_suffix.mpr h3
    rw [hpq] at h4
    exact Bool.false_ne_true h4

theorem endswith_false_right {s p q : String}
    (hlen : p.data.length ≤ q.data.length)
    (hpq : List.isSuffixOf p.data q.data = false)
    (hp : endswith s p = true) : endswith s q = false := by
  cases hsq : endswith s q with
  | false => rfl
  | true =>
    exfalso
    have h1 : p.data <:+ s.data := endswith_iff.mp hp
    have h2 : q.data <:+ s.data := endswith_iff.mp hsq
    have h3 : p.data <:+ q.data := List.suffix_of_suffix_length_le h1 h2 hlen
    have h4 : List.isSuffixOf p.data q.data = true :=
      List.isSuffixOf_iff_suffix.mpr h3
    rw [hpq] at h4
    exact Bool.false_ne_true h4

theorem guess_type_eq_superGuess {superGuess : String → String} {path : String}
    (hw : endswith path ".wasm" = false) (hm : endswith path ".mjs" = false) :
    guess_type superGuess path = superGuess path := by
  simp [guess_type, hw, hm]

theorem guess_type_html {path : String} (h : endswith path ".html" = true) :
    guess_type defaultGuessType path = "text/html" := by
  have hw : endswith path ".wasm" = false :=
    endswith_false_left (by decide) (by decide) h
  have hm : endswith path ".mjs" = false :=
    endswith_false_left (by decide) (by decide) h
  rw [guess_type_eq_superGuess hw hm]
  simp [defaultGuessType, h]

-- scratch tests
example : endswith "a.wasm" ".wasm" = true := by decide
example : endswith "a.WASM" ".wasm" = false := by decide
example : resolvePath "/../secret.txt" = none := by decide
example : resolvePath "/a/../b.txt" = some ["b.txt"] := by decide
example : resolvePath "/index.html" = some ["index.html"] := by decide
example : guess_type defaultGuessType "/x/y.wasm" = "application/wasm" := by decide
example : (handle [] [(["index.html"], [1, 2])] "/index.html").status = 200 := by decide
example : countName (handle [] [] "/../x").headers "Cross-Origin-Opener-Policy" = 1 := by decide
example : pythonInt "3000" = some 3000 := by decide
example : pythonInt " -42 " = some (-42) := by decide
example : pythonInt "+1_0" = some 10 := by decide
example : pythonInt "1_" = none := by decide
example : pythonInt "abc" = none := by decide
example : pythonInt "" = none := by decide
example : pythonInt "99999" = some 99999 := by decide
example : parseArgs ["serve.py"] = some (8080, "127.0.0.1") := by decide
example : parseArgs ["serve.py", "3000", "0.0.0.0"] = some (3000, "0.0.0.0") := by decide
example : startup (fun _ _ => true) ["serve.py", "3000", "0.0.0.0"] =
    .serving "0.0.0.0" 3000 := by decide
example : startup (fun _ _ => false) ["serve.py"] = .fatal 1 := by decide
example : startup (fun _ _ => true) ["serve.py", "80x"] = .fatal 1 := by decide

/-! ## Claim theorems -/

/-- Claim C1: for every request the server answers (successful or erroring,
including error responses generated by the underlying facility), the response
header block contains `Cross-Origin-Opener-Policy: same-origin` and
`Cross-Origin-Embedder-Policy: require-corp`, each exactly once. -/
theorem isolation_headers_every_response
    (root : List String) (fs : FileSystem) (reqPath : String) :
    countName (handle root fs reqPath).headers "Cross-Origin-Opener-Policy" = 1 ∧
    coopHeader ∈ (handle root fs reqPath).headers ∧
    countName (handle root fs reqPath).headers "Cross-Origin-Embedder-Policy" = 1 ∧
    coepHeader ∈ (handle root fs reqPath).headers := by
  cases hr : resolvePath reqPath with
  | none =>
    simp [handle, hr, errorResponse, end_headers, countName, coopHeader, coepHeader]
  | some segs =>
    cases hf : fsLookup fs (root ++ segs) with
    | none =>
      simp [handle, hr, hf, errorResponse, end_headers, countName, coopHeader,
        coepHeader]
    | some bytes =>
      simp [handle, hr, hf, end_headers, countName, coopHeader, coepHeader]

/-- Claim C2: content-type resolution returns `application/wasm` for paths
ending in `.wasm`, else `application/javascript` for paths ending in `.mjs`,
else the underlying facility's default lookup; it is a pure function of the
path, independent of file content or existence. -/
theorem guess_type_override_spec (superGuess : String → String) (path : String) :
    (endswith path ".wasm" = true →
      guess_type superGuess path = "application/wasm") ∧
    (endswith path ".wasm" = false → endswith path ".mjs" = true →
      guess_type superGuess path = "application/javascript") ∧
    (endswith path ".wasm" = false → endswith path ".mjs" = false →
      guess_type superGuess path = superGuess path) := by
  refine ⟨fun hw => ?_, fun hw hm => ?_, fun hw hm => ?_⟩
  · simp [guess_type, hw]
  · simp [guess_type, hw, hm]
  · simp [guess_type, hw, hm]

/-- Witness for C2 at concrete paths. -/
theorem guess_type_override_spec_witness :
    guess_type (fun _ => "application/octet-stream") "m.wasm" = "application/wasm" ∧
    guess_type (fun _ => "application/octet-stream") "m.mjs" =
      "application/javascript" ∧
    guess_type (fun _ => "text/plain") "m.txt" = "text/plain" :=
  ⟨(guess_type_override_spec (fun _ => "application/octet-stream") "m.wasm").1
      (by decide),
   (guess_type_override_spec (fun _ => "application/octet-stream") "m.mjs").2.1
      (by decide) (by decide),
   (guess_type_override_spec (fun _ => "text/plain") "m.txt").2.2
      (by decide) (by decide)⟩

/-- Claim C3: a request path whose `..` segments would escape the document
root is answered with status 403 or 404, and no response body ever holds the
contents of a file outside the document root: every 200 body is the content
of a filesystem entry whose path extends the root. -/
theorem traversal_rejected (root : List String) (fs : FileSystem) (reqPath : String) :
    (resolvePath reqPath = none →
      (handle root fs reqPath).status = 403 ∨
        (handle root fs reqPath).status = 404) ∧
    ((handle root fs reqPath).body = [] ∨
      ∃ segs, resolvePath reqPath = some segs ∧
        fsLookup fs (root ++ segs) = some (handle root fs reqPath).body) := by
  cases hr : resolvePath reqPath with
  | none => simp [handle, hr, errorResponse]
  | some segs =>
    cases hf : fsLookup fs (root ++ segs) with
    | none => simp [handle, hr, hf, errorResponse]
    | some bytes =>
      constructor
      · intro hc
        exact absurd hc (by simp)
      · exact Or.inr ⟨segs, rfl, by simp [handle, hr, hf]⟩

/-- Witness for C3: `/..` escaping the root is rejected with 404 even when a
matching file exists outside the root. -/
theorem traversal_rejected_witness :
    resolvePath "/../secret.txt" = none ∧
    ((handle ["srv"] [(["secret.txt"], [7])] "/../secret.txt").status = 403 ∨
      (handle ["srv"] [(["secret.txt"], [7])] "/../secret.txt").status = 404) :=
  ⟨by decide,
   (traversal_rejected ["srv"] [(["secret.txt"], [7])] "/../secret.txt").1
      (by decide)⟩

/-- Claim C4: after writing `bytes` to a file at a path under the document
root, a GET request for that path returns status 200 with body exactly
`bytes`. -/
theorem write_then_get (root : List String) (fs : FileSystem) (segs : List String)
    (bytes : List Nat) (reqPath : String)
    (h : resolvePath reqPath = some segs) :
    (handle root (fsWrite fs (root ++ segs) bytes) reqPath).status = 200 ∧
    (handle root (fsWrite fs (root ++ segs) bytes) reqPath).body = bytes := by
  simp [handle, h, fsWrite, fsLookup]

/-- Witness for C4 at a concrete file. -/
theorem write_then_get_witness :
    (handle ["web"] (fsWrite [] (["web"] ++ ["index.html"]) [104, 105])
        "/index.html").status = 200 ∧
    (handle ["web"] (fsWrite [] (["web"] ++ ["index.html"]) [104, 105])
        "/index.html").body = [104, 105] :=
  write_then_get ["web"] [] ["index.html"] [104, 105] "/index.html" (by decide)

/-- Claim C5: with no positional arguments the server uses port 8080 and bind
address 127.0.0.1; positional argument 1 is the integer port and positional
argument 2 the bind address, so `3000 0.0.0.0` binds 0.0.0.0:3000. -/
theorem cli_arguments_parsed :
    (∀ prog : String, parseArgs [prog] = some (8080, "127.0.0.1")) ∧
    (∀ (prog a1 : String) (p : Int), pythonInt a1 = some p →
      parseArgs [prog, a1] = some (p, "127.0.0.1")) ∧
    (∀ (prog a1 a2 : String) (p : Int), pythonInt a1 = some p →
      parseArgs [prog, a1, a2] = some (p, a2)) ∧
    (∀ (bindOk : String → Int → Bool) (prog : String),
      bindOk "0.0.0.0" 3000 = true →
      startup bindOk [prog, "3000", "0.0.0.0"] = .serving "0.0.0.0" 3000) := by
  have h3000 : pythonInt "3000" = some 3000 := by decide
  refine ⟨fun prog => by simp [parseArgs],
    fun prog a1 p hp => by simp [parseArgs, hp],
    fun prog a1 a2 p hp => by simp [parseArgs, hp],
    fun bindOk prog hb => by simp [startup, parseArgs, h3000, hb]⟩

/-- Witness for C5 at concrete argument vectors. -/
theorem cli_arguments_parsed_witness :
    parseArgs ["serve.py"] = some (8080, "127.0.0.1") ∧
    parseArgs ["serve.py", "9090"] = some (9090, "127.0.0.1") ∧
    parseArgs ["serve.py", "9090", "::1"] = some (9090, "::1") ∧
    startup (fun _ _ => true) ["serve.py", "3000", "0.0.0.0"] =
      .serving "0.0.0.0" 3000 :=
  ⟨cli_arguments_parsed.1 "serve.py",
   cli_arguments_parsed.2.1 "serve.py" "9090" 9090 (by decide),
   cli_arguments_parsed.2.2.1 "serve.py" "9090" "::1" 9090 (by decide),
   cli_arguments_parsed.2.2.2 (fun _ _ => true) "serve.py" rfl⟩

/-- Claim C6: a non-integer first argument, or a failed bind of the
(host, port) pair, terminates the process with a non-zero exit code before
any request is served (a `fatal` outcome is distinct from every `serving`
outcome). -/
theorem startup_failure_exits_nonzero :
    (∀ (bindOk : String → Int → Bool) (prog a1 : String) (rest : List String),
      pythonInt a1 = none →
      startup bindOk (prog :: a1 :: rest) = .fatal 1) ∧
    (∀ (bindOk : String → Int → Bool) (argv : List String) (p : Int) (b : String),
      parseArgs argv = some (p, b) → bindOk b p = false →
      startup bindOk argv = .fatal 1) ∧
    (∀ (c : Nat) (b : String) (p : Int),
      StartResult.fatal c ≠ StartResult.serving b p) ∧
    (1 : Nat) ≠ 0 := by
  refine ⟨fun bindOk prog a1 rest h => by simp [startup, parseArgs, h],
    fun bindOk argv p b hpa hb => by simp [startup, hpa, hb],
    fun c b p => by simp,
    by decide⟩

/-- Witness for C6: an unparsable port and a failing bind, both fatal. -/
theorem startup_failure_exits_nonzero_witness :
    startup (fun _ _ => true) ["serve.py", "abc"] = .fatal 1 ∧
    startup (fun _ _ => false) ["serve.py", "8080"] = .fatal 1 :=
  ⟨startup_failure_exits_nonzero.1 (fun _ _ => true) "serve.py" "abc" [] (by decide),
   startup_failure_exits_nonzero.2.1 (fun _ _ => false) ["serve.py", "8080"] 8080
     "127.0.0.1" (by decide) rfl⟩

/-- Claim C7: an interrupt while serving is a normal shutdown: the process
logs the shutdown message, holds no listening socket afterwards, and exits
with code 0. -/
theorem interrupt_clean_shutdown (listener : String × Int) (logSoFar : List String) :
    (serveUntilInterrupt listener logSoFar).exitCode = 0 ∧
    (serveUntilInterrupt listener logSoFar).openListeners = [] ∧
    "\nShutting down." ∈ (serveUntilInterrupt listener logSoFar).loggedLines := by
  simp [serveUntilInterrupt, keyboardInterruptHandler]

/-- Claim C8: a request path ending in `.html` that maps to an existing
regular file is served with the standard default `text/html` Content-Type;
the two-entry override table does not affect it. -/
theorem html_default_content_type (root : List String) (fs : FileSystem)
    (reqPath : String) (segs : List String) (bytes : List Nat)
    (hhtml : endswith reqPath ".html" = true)
    (hres : resolvePath reqPath = some segs)
    (hfile : fsLookup fs (root ++ segs) = some bytes) :
    ("Content-Type", "text/html") ∈ (handle root fs reqPath).headers ∧
    guess_type defaultGuessType reqPath = "text/html" := by
  have hg := guess_type_html hhtml
  refine ⟨?_, hg⟩
  simp [handle, hres, hfile, end_headers, hg]

/-- Witness for C8 at a concrete `.html` file. -/
theorem html_default_content_type_witness :
    ("Content-Type", "text/html") ∈
      (handle [] [(["index.html"], [60])] "/index.html").headers ∧
    guess_type defaultGuessType "/index.html" = "text/html" :=
  html_default_content_type [] [(["index.html"], [60])] "/index.html"
    ["index.html"] [60] (by decide) (by decide) (by decide)

/-- Claim C9: the MIME override matches suffixes case-sensitively: on a path
ending in `.WASM` or `.MJS` (and hence, by case difference, in neither
`.wasm` nor `.mjs`) neither override branch fires and the result is the
base-class default lookup for that path. -/
theorem mime_override_case_sensitive (superGuess : String → String) (path : String)
    (h : endswith path ".WASM" = true ∨ endswith path ".MJS" = true) :
    guess_type superGuess path = superGuess path := by
  rcases h with h | h
  · exact guess_type_eq_superGuess
      (endswith_false_left (p := ".wasm") (by decide) (by decide) h)
      (endswith_false_left (p := ".mjs") (by decide) (by decide) h)
  · exact guess_type_eq_superGuess
      (endswith_false_right (q := ".wasm") (by decide) (by decide) h)
      (endswith_false_left (p := ".mjs") (by decide) (by decide) h)

/-- Witness for C9 at concrete upper-case paths. -/
theorem mime_override_case_sensitive_witness :
    guess_type (fun _ => "application/octet-stream") "m.WASM" =
      "application/octet-stream" ∧
    guess_type (fun _ => "application/octet-stream") "m.MJS" =
      "application/octet-stream" :=
  ⟨mime_override_case_sensitive (fun _ => "application/octet-stream") "m.WASM"
      (Or.inl (by decide)),
   mime_override_case_sensitive (fun _ => "application/octet-stream") "m.MJS"
      (Or.inr (by decide))⟩

/-- Claim C10: argument parsing rejects exactly the first arguments that are
not valid integer literals; every integer — negative or above 65535 included —
parses and is passed unchanged to the server constructor, so an out-of-range
rejection can only come from the bind, not from parsing. -/
theorem port_argument_integer_only
    (prog a1 a2 : String) (bindOk : String → Int → Bool) :
    (parseArgs [prog, a1, a2] = none ↔ pythonInt a1 = none) ∧
    (∀ p : Int, pythonInt a1 = some p →
      parseArgs [prog, a1, a2] = some (p, a2) ∧
      (bindOk a2 p = true → startup bindOk [prog, a1, a2] = .serving a2 p) ∧
      (bindOk a2 p = false → startup bindOk [prog, a1, a2] = .fatal 1)) := by
  constructor
  · cases hpi : pythonInt a1 with
    | none => simp [parseArgs, hpi]
    | some q => simp [parseArgs, hpi]
  · intro p hp
    refine ⟨by simp [parseArgs, hp], fun hb => ?_, fun hb => ?_⟩
    · simp [startup, parseArgs, hp, hb]
    · simp [startup, parseArgs, hp, hb]

/-- Witness for C10: a negative port and a port above 65535 both pass
parsing; the rejection point is the bind oracle. -/
theorem port_argument_integer_only_witness :
    parseArgs ["serve.py", "-1", "0.0.0.0"] = some (-1, "0.0.0.0") ∧
    startup (fun _ _ => true) ["serve.py", "70000", "0.0.0.0"] =
      .serving "0.0.0.0" 70000 ∧
    startup (fun _ _ => false) ["serve.py", "70000", "0.0.0.0"] = .fatal 1 :=
  ⟨(((port_argument_integer_only "serve.py" "-1" "0.0.0.0" (fun _ _ => true)).2
      (-1) (by decide))).1,
   (((port_argument_integer_only "serve.py" "70000" "0.0.0.0"
      (fun _ _ => true)).2 70000 (by decide))).2.1 rfl,
   (((port_argument_integer_only "serve.py" "70000" "0.0.0.0"
      (fun _ _ => false)).2 70000 (by decide))).2.2 rfl⟩
